import Mathlib

/-!
# Verification of `src/backup.py` (mongo-dump-to-GCS one-shot CLI)

Shallow embedding of the single command `backup_mongo_to_gcs` and of the
`__main__` prologue.  External effects (pymongo client construction, the
`ismaster` admin command, the `mongodump` subprocess, the Google Cloud
Storage client / bucket / blob calls, the process environment and the local
disk) are modelled through a `World` record that fixes the outcome of each
external call, and the run is reified as a list of `Event`s in the order the
script performs them.
-/

namespace MongoBackup

/-- Python exception values that can flow through the script.  `str(e)` is
`excMessage`.  `connectionFailure` stands for `pymongo.errors.ConnectionFailure`
(the only class the script catches specially); `unicodeDecodeError` stands for
the `UnicodeDecodeError` raised by `bytes.decode("utf-8")` on invalid input
(carrying the index of the offending sequence's start byte and that byte);
`other` stands for any other `Exception`. -/
inductive PyExc where
  | connectionFailure (msg : String)
  | unicodeDecodeError (pos : Nat) (byte : Nat)
  | other (msg : String)
deriving Repr, DecidableEq

/-- The decimal digit character for `n % 10` (strftime fields are zero-padded
decimal, so each output position is exactly this digit). -/
def digitChar (n : Nat) : Char :=
  match n % 10 with
  | 0 => '0' | 1 => '1' | 2 => '2' | 3 => '3' | 4 => '4'
  | 5 => '5' | 6 => '6' | 7 => '7' | 8 => '8' | _ => '9'

/-- Lower-case hex digit character for `n % 16`, used only to render the
`UnicodeDecodeError` message the way CPython does (`0xff`). -/
def hexDigitChar (n : Nat) : Char :=
  match n % 16 with
  | 0 => '0' | 1 => '1' | 2 => '2' | 3 => '3' | 4 => '4' | 5 => '5'
  | 6 => '6' | 7 => '7' | 8 => '8' | 9 => '9' | 10 => 'a' | 11 => 'b'
  | 12 => 'c' | 13 => 'd' | 14 => 'e' | _ => 'f'

/-- Two lower-case hex digits of a byte value. -/
def hexByte (b : Nat) : String := String.mk [hexDigitChar (b / 16), hexDigitChar b]

/-- `str(e)` for the modelled exceptions.  For `UnicodeDecodeError` CPython
renders byte and position; its trailing reason phrase varies with the exact
failure and is abstracted to a fixed phrase here (no claim depends on it). -/
def excMessage : PyExc → String
  | PyExc.connectionFailure m => m
  | PyExc.unicodeDecodeError pos byte =>
      "'utf-8' codec can't decode byte 0x" ++ hexByte byte ++ " in position " ++
        Nat.repr pos ++ ": invalid data"
  | PyExc.other m => m

/-- Strict UTF-8 decoding of a byte list, as performed by Python's
`bytes.decode("utf-8")`: rejects stray/overlong/truncated sequences,
surrogates (via the `0xED` restriction) and code points above `U+10FFFF`
(via the `0xF4` restriction).  On failure it raises `UnicodeDecodeError`
carrying the start byte of the offending sequence and its index. -/
def utf8DecodeFrom : List Nat → Nat → Except PyExc (List Char)
  | [], _ => Except.ok []
  | b :: rest, i =>
    if b < 0x80 then
      match utf8DecodeFrom rest (i + 1) with
      | Except.ok cs => Except.ok (Char.ofNat b :: cs)
      | Except.error e => Except.error e
    else if 0xC2 ≤ b && b ≤ 0xDF then
      match rest with
      | c1 :: rest2 =>
        if 0x80 ≤ c1 && c1 ≤ 0xBF then
          match utf8DecodeFrom rest2 (i + 2) with
          | Except.ok cs => Except.ok (Char.ofNat ((b - 0xC0) * 64 + (c1 - 0x80)) :: cs)
          | Except.error e => Except.error e
        else Except.error (PyExc.unicodeDecodeError i b)
      | [] => Except.error (PyExc.unicodeDecodeError i b)
    else if 0xE0 ≤ b && b ≤ 0xEF then
      match rest with
      | c1 :: c2 :: rest2 =>
        if (if b = 0xE0 then 0xA0 else 0x80) ≤ c1 &&
            c1 ≤ (if b = 0xED then 0x9F else 0xBF) && 0x80 ≤ c2 && c2 ≤ 0xBF then
          match utf8DecodeFrom rest2 (i + 3) with
          | Except.ok cs =>
              Except.ok (Char.ofNat ((b - 0xE0) * 4096 + (c1 - 0x80) * 64 + (c2 - 0x80)) :: cs)
          | Except.error e => Except.error e
        else Except.error (PyExc.unicodeDecodeError i b)
      | _ => Except.error (PyExc.unicodeDecodeError i b)
    else if 0xF0 ≤ b && b ≤ 0xF4 then
      match rest with
      | c1 :: c2 :: c3 :: rest2 =>
        if (if b = 0xF0 then 0x90 else 0x80) ≤ c1 &&
            c1 ≤ (if b = 0xF4 then 0x8F else 0xBF) &&
            0x80 ≤ c2 && c2 ≤ 0xBF && 0x80 ≤ c3 && c3 ≤ 0xBF then
          match utf8DecodeFrom rest2 (i + 4) with
          | Except.ok cs =>
              Except.ok (Char.ofNat ((b - 0xF0) * 262144 + (c1 - 0x80) * 4096 +
                (c2 - 0x80) * 64 + (c3 - 0x80)) :: cs)
          | Except.error e => Except.error e
        else Except.error (PyExc.unicodeDecodeError i b)
      | _ => Except.error (PyExc.unicodeDecodeError i b)
    else Except.error (PyExc.unicodeDecodeError i b)

/-- `bytes.decode("utf-8")` on the whole byte list. -/
def utf8Decode (bs : List Nat) : Except PyExc String :=
  match utf8DecodeFrom bs 0 with
  | Except.ok cs => Except.ok (String.mk cs)
  | Except.error e => Except.error e

/-- A UTC wall-clock instant as `datetime.datetime.utcnow()` exposes it
(down to seconds; sub-second precision is not used by the script). -/
structure DateTime where
  year : Nat
  month : Nat
  day : Nat
  hour : Nat
  minute : Nat
  second : Nat
deriving Repr, DecidableEq

/-- Zero-padded two-digit strftime field (`%m`, `%d`, `%H`, `%M`, `%S`);
faithful for the in-range values `datetime` guarantees (`< 100`). -/
def fmt2 (n : Nat) : String := String.mk [digitChar (n / 10), digitChar n]

/-- Zero-padded four-digit strftime field (`%Y`); faithful for the years
`datetime` produces (`1 ≤ year ≤ 9999`, and ≥ 1000 for any current date). -/
def fmt4 (n : Nat) : String :=
  String.mk [digitChar (n / 1000), digitChar (n / 100), digitChar (n / 10), digitChar n]

/-- `strftime("%Y-%m-%dT%H-%M-%S")` on the given instant (backup.py line 39). -/
def strftimeTimestamp (t : DateTime) : String :=
  fmt4 t.year ++ "-" ++ fmt2 t.month ++ "-" ++ fmt2 t.day ++ "T" ++
    fmt2 t.hour ++ "-" ++ fmt2 t.minute ++ "-" ++ fmt2 t.second

/-- The archive filename built at backup.py lines 40-41:
`f"mongo_backup_{database_alias}_{timestamp}"` plus the `".gz"` suffix. -/
def backupArchiveName (dbAlias : String) (t : DateTime) : String :=
  "mongo_backup_" ++ dbAlias ++ "_" ++ strftimeTimestamp t ++ ".gz"

/-- The exact argument vector handed to `subprocess.Popen`
(backup.py lines 46-51). -/
def mongodumpCommand (uri archive : String) : List String :=
  ["mongodump", "--uri=" ++ uri, "--archive=" ++ archive, "--gzip"]

/-- The command-line options of the single click command (all required). -/
structure Args where
  mongo_uri : String
  gcs_bucket_name : String
  gcs_credentials : String
  database_alias : String
deriving Repr, DecidableEq

/-- Outcomes of the external calls a run can make, fixed up front: what
`MongoClient(uri)` and the `ismaster` admin command do, the `mongodump`
subprocess's exit status and captured stderr bytes, what the storage-client
construction and the blob upload do, the current UTC time, and the files
already on the local disk.  (`mongodump` writes the archive file itself; the
embedding materialises it on disk exactly when the subprocess exits 0 —
whether a failing `mongodump` leaves a partial file behind is outside the
script and not modelled.) -/
structure World where
  utcnow : DateTime
  mongoClientRes : Except PyExc Unit
  ismasterRes : Except PyExc Unit
  dumpReturncode : Int
  dumpStderr : List Nat
  storageClientRes : Except PyExc Unit
  uploadRes : Except PyExc Unit
  disk0 : List String
deriving Repr

/-- Observable actions of a run, in program order.  `echoOut`/`echoErr` are
`click.echo` on stdout / stderr (`err=True`); the remaining constructors mark
each external call with the arguments the script passes to it. -/
inductive Event where
  | echoOut (msg : String)
  | echoErr (msg : String)
  | mongoConnect (uri : String)
  | adminCommand (cmd : String)
  | getUtcNow
  | runSubprocess (cmd : List String)
  | storageAuth (credentialsPath : String)
  | bucketLookup (bucket : String)
  | blobRef (blobName : String)
  | uploadFromFilename (blobName : String) (filename : String)
deriving Repr, DecidableEq

/-- Result of a run: the event trace, the final local-disk contents, and the
exception escaping the `try` block (if any). -/
structure RunOut where
  trace : List Event
  disk : List String
  exc : Option PyExc
deriving Repr, DecidableEq

/-- Prepend an event to a run's trace. -/
def RunOut.consTrace (e : Event) (r : RunOut) : RunOut :=
  ⟨e :: r.trace, r.disk, r.exc⟩

/-- The body of the `try` block of `backup_mongo_to_gcs`
(backup.py lines 30-71), statement by statement.  Each external call first
records its event, then the branch dictated by `w` is taken; an uncaught
exception aborts the remaining statements and is returned in `exc`. -/
def tryBody (a : Args) (w : World) : RunOut :=
  RunOut.consTrace (Event.echoOut "Connecting to MongoDB...") <|
  RunOut.consTrace (Event.mongoConnect a.mongo_uri) <|
  match w.mongoClientRes with
  | Except.error e => ⟨[], w.disk0, some e⟩
  | Except.ok _ =>
    RunOut.consTrace (Event.adminCommand "ismaster") <|
    match w.ismasterRes with
    | Except.error e => ⟨[], w.disk0, some e⟩
    | Except.ok _ =>
      RunOut.consTrace (Event.echoOut "Successfully connected to MongoDB.") <|
      RunOut.consTrace Event.getUtcNow <|
      let archive := backupArchiveName a.database_alias w.utcnow
      RunOut.consTrace (Event.echoOut ("Creating MongoDB backup: " ++ archive ++ "...")) <|
      RunOut.consTrace (Event.runSubprocess (mongodumpCommand a.mongo_uri archive)) <|
      if w.dumpReturncode ≠ 0 then
        match utf8Decode w.dumpStderr with
        | Except.error e => ⟨[], w.disk0, some e⟩
        | Except.ok s =>
            ⟨[Event.echoErr ("Error during mongodump: " ++ s)], w.disk0, none⟩
      else
        RunOut.consTrace (Event.echoOut "Backup created successfully.") <|
        RunOut.consTrace
          (Event.echoOut ("Uploading backup to GCS bucket: " ++ a.gcs_bucket_name ++ "...")) <|
        RunOut.consTrace (Event.storageAuth a.gcs_credentials) <|
        match w.storageClientRes with
        | Except.error e => ⟨[], archive :: w.disk0, some e⟩
        | Except.ok _ =>
          RunOut.consTrace (Event.bucketLookup a.gcs_bucket_name) <|
          RunOut.consTrace (Event.blobRef archive) <|
          RunOut.consTrace (Event.uploadFromFilename archive archive) <|
          match w.uploadRes with
          | Except.error e => ⟨[], archive :: w.disk0, some e⟩
          | Except.ok _ =>
            ⟨[Event.echoOut ("Backup " ++ archive ++ " uploaded to " ++ a.gcs_bucket_name ++ ".")],
              archive :: w.disk0, none⟩

/-- The message the top-level `except` clauses print (backup.py lines 73-76):
`ConnectionFailure` gets the connectivity wording, every other exception the
unclassified wording. -/
def topLevelErrorMessage : PyExc → String
  | PyExc.connectionFailure m => "MongoDB connection failed: " ++ m
  | e => "An error occurred: " ++ excMessage e

/-- The whole command handler: the `try` body plus the two `except` clauses.
Every modelled exception is an `Exception` subclass, so it is always caught,
printed on the error stream, and the handler returns normally (`exc = none`
on every path — nothing is ever raised to click). -/
def backup_mongo_to_gcs (a : Args) (w : World) : RunOut :=
  let r := tryBody a w
  match r.exc with
  | none => ⟨r.trace, r.disk, none⟩
  | some e => ⟨r.trace ++ [Event.echoErr (topLevelErrorMessage e)], r.disk, none⟩

/-- The script sets no exit status anywhere (`sys.exit` is never called and
the click handler returns normally on every path, all exceptions being
caught), so the process exit code is 0 for every run that reaches the
handler. -/
def processExitCode (_a : Args) (_w : World) : Nat := 0

/-- Observable actions of the `__main__` prologue (backup.py lines 79-85). -/
inductive MainEvent where
  | logWarning (msg : String)
  | loadDotenv (filename : String)
  | invokeCommand
deriving Repr, DecidableEq

/-- The `__main__` prologue as an event trace: if `.env` is a file in the
working directory, a warning is logged and `load_dotenv` is called, and only
then is the click command (which parses the command line) invoked. -/
def mainScript (dotenvIsFile : Bool) : List MainEvent :=
  (if dotenvIsFile then
    [MainEvent.logWarning "loading `.env`", MainEvent.loadDotenv ".env"]
  else []) ++ [MainEvent.invokeCommand]

/-- The process environment after the prologue.  `dotenvApply` is the effect
of python-dotenv's `load_dotenv` on the environment (an external library,
left abstract); it is applied exactly when `.env` exists. -/
def mainEnv (dotenvIsFile : Bool)
    (dotenvApply : List (String × String) → List (String × String))
    (env0 : List (String × String)) : List (String × String) :=
  if dotenvIsFile then dotenvApply env0 else env0

/-! ## Verification-side definitions -/

/-- The spec's archive-timestamp pattern `YYYY-MM-DDTHH-MM-SS`: nineteen
characters, digits everywhere except the fixed separators. -/
def timestampShape (s : String) : Bool :=
  match s.toList with
  | [y1, y2, y3, y4, c1, mo1, mo2, c2, d1, d2, c3, h1, h2, c4, mi1, mi2, c5, s1, s2] =>
    y1.isDigit && y2.isDigit && y3.isDigit && y4.isDigit &&
    (c1 == '-') && mo1.isDigit && mo2.isDigit && (c2 == '-') &&
    d1.isDigit && d2.isDigit && (c3 == 'T') &&
    h1.isDigit && h2.isDigit && (c4 == '-') &&
    mi1.isDigit && mi2.isDigit && (c5 == '-') &&
    s1.isDigit && s2.isDigit
  | _ => false

/-- How many times a trace invokes the dump subprocess. -/
def countDumpInvocations : List Event → Nat
  | [] => 0
  | Event.runSubprocess _ :: rest => countDumpInvocations rest + 1
  | _ :: rest => countDumpInvocations rest

/-- Command-line input used by the concrete witnesses (spec §8, scenario 1). -/
def sampleArgs : Args := ⟨"mongodb://localhost:27017", "my-bucket", "creds.json", "prod"⟩

/-- The instant of spec §8, scenario 1. -/
def sampleTime : DateTime := ⟨2024, 1, 15, 10, 30, 0⟩

/-- A run in which every external call succeeds. -/
def okWorld : World :=
  ⟨sampleTime, Except.ok (), Except.ok (), 0, [], Except.ok (), Except.ok (), ["other.txt"]⟩

/-- A run in which `mongodump` exits 1 with stderr `authentication failed`
(spec §8, scenario 3). -/
def dumpFailWorld : World :=
  ⟨sampleTime, Except.ok (), Except.ok (), 1,
    "authentication failed".toList.map Char.toNat, Except.ok (), Except.ok (), []⟩

/-- A run in which `MongoClient` raises `ConnectionFailure`
(spec §8, scenario 2). -/
def probeFailWorld : World :=
  ⟨sampleTime, Except.error (PyExc.connectionFailure "localhost:27017: Connection refused"),
    Except.ok (), 0, [], Except.ok (), Except.ok (), []⟩

/-- A run in which the probe fails with an exception that is not a
`ConnectionFailure` (pymongo raises e.g. `InvalidURI`/`ConfigurationError`
from `MongoClient`, or `OperationFailure`, none of which subclass
`ConnectionFailure`). -/
def probeOtherFailWorld : World :=
  ⟨sampleTime, Except.error (PyExc.other "bad uri"), Except.ok (), 0, [],
    Except.ok (), Except.ok (), []⟩

/-- A run in which dump succeeds and `blob.upload_from_filename` raises
(spec §8, scenario 4). -/
def uploadFailWorld : World :=
  ⟨sampleTime, Except.ok (), Except.ok (), 0, [], Except.ok (),
    Except.error (PyExc.other "403 Forbidden"), ["other.txt"]⟩

/-- A run in which `mongodump` exits 1 and its stderr is the lone byte
`0xFF`, which is not valid UTF-8. -/
def dumpFailBadUtf8World : World :=
  ⟨sampleTime, Except.ok (), Except.ok (), 1, [255], Except.ok (), Except.ok (), []⟩

/-- Claim C6 as stated: every probe failure — however the underlying
exception is classified — ends the run with the connectivity-error message
`MongoDB connection failed: ...`. -/
def probeFailuresAllConnectivity : Prop :=
  ∀ a w e, (w.mongoClientRes = Except.error e ∨
      (w.mongoClientRes = Except.ok () ∧ w.ismasterRes = Except.error e)) →
    ∃ m, (backup_mongo_to_gcs a w).trace.getLast? =
        some (Event.echoErr ("MongoDB connection failed: " ++ m))

/-- Claim C9 as stated: in every run, the timestamp acquisition precedes the
first step (the `MongoClient` connection) in the trace. -/
def timestampTakenBeforeProbe : Prop :=
  ∀ a w i j,
    (backup_mongo_to_gcs a w).trace.get? i = some Event.getUtcNow →
    (backup_mongo_to_gcs a w).trace.get? j = some (Event.mongoConnect a.mongo_uri) →
    i < j

/-! ## Supporting lemmas -/

/-- Every `digitChar` output is a decimal digit character. -/
theorem digitChar_isDigit (n : Nat) : (digitChar n).isDigit = true := by
  have h : n % 10 = 0 ∨ n % 10 = 1 ∨ n % 10 = 2 ∨ n % 10 = 3 ∨ n % 10 = 4 ∨
      n % 10 = 5 ∨ n % 10 = 6 ∨ n % 10 = 7 ∨ n % 10 = 8 ∨ n % 10 = 9 := by omega
  unfold digitChar
  rcases h with h|h|h|h|h|h|h|h|h|h <;> rw [h] <;> decide

/-- The strftime output always has the `YYYY-MM-DDTHH-MM-SS` shape. -/
theorem timestampShape_strftime (t : DateTime) :
    timestampShape (strftimeTimestamp t) = true := by
  show timestampShape (String.mk
    [digitChar (t.year / 1000), digitChar (t.year / 100), digitChar (t.year / 10),
     digitChar t.year, '-', digitChar (t.month / 10), digitChar t.month, '-',
     digitChar (t.day / 10), digitChar t.day, 'T', digitChar (t.hour / 10), digitChar t.hour,
     '-', digitChar (t.minute / 10), digitChar t.minute, '-', digitChar (t.second / 10),
     digitChar t.second]) = true
  simp [timestampShape, digitChar_isDigit]

/-- Connectivity-style and unclassified-style console messages never
coincide (their first characters differ). -/
theorem connectivityMsg_ne_unclassified (m y : String) :
    "MongoDB connection failed: " ++ m ≠ "An error occurred: " ++ y := by
  intro h
  have h2 := congrArg String.data h
  rw [String.data_append, String.data_append,
      show "MongoDB connection failed: ".data = 'M' :: "ongoDB connection failed: ".data from rfl,
      show "An error occurred: ".data = 'A' :: "n error occurred: ".data from rfl,
      List.cons_append, List.cons_append] at h2
  injection h2 with hh
  exact absurd hh (by decide)

/-- Dump-error-style and unclassified-style console messages never coincide
(their first characters differ). -/
theorem dumpMsg_ne_unclassified (s y : String) :
    "Error during mongodump: " ++ s ≠ "An error occurred: " ++ y := by
  intro h
  have h2 := congrArg String.data h
  rw [String.data_append, String.data_append,
      show "Error during mongodump: ".data = 'E' :: "rror during mongodump: ".data from rfl,
      show "An error occurred: ".data = 'A' :: "n error occurred: ".data from rfl,
      List.cons_append, List.cons_append] at h2
  injection h2 with hh
  exact absurd hh (by decide)

/-- On every path the script only ever adds files to the local disk (the
source contains no deletion call of any kind). -/
theorem disk_never_shrinks (a : Args) (w : World) :
    w.disk0 ⊆ (backup_mongo_to_gcs a w).disk := by
  obtain ⟨now, mc, im, rc, serr, sc, up, d0⟩ := w
  rcases mc with e | u
  · simp [backup_mongo_to_gcs, tryBody, RunOut.consTrace]
  rcases im with e | u'
  · simp [backup_mongo_to_gcs, tryBody, RunOut.consTrace]
  by_cases hrc : rc = 0
  · rcases sc with e | u''
    · simp [backup_mongo_to_gcs, tryBody, RunOut.consTrace, hrc, List.subset_cons_self]
    rcases up with e | u'''
    · simp [backup_mongo_to_gcs, tryBody, RunOut.consTrace, hrc, List.subset_cons_self]
    · simp [backup_mongo_to_gcs, tryBody, RunOut.consTrace, hrc, List.subset_cons_self]
  · rcases hd : utf8Decode serr with e | s
    · simp [backup_mongo_to_gcs, tryBody, RunOut.consTrace, hrc, hd]
    · simp [backup_mongo_to_gcs, tryBody, RunOut.consTrace, hrc, hd]

/-! ## Claims -/

/-- Claim C1: in every run in which the dump subprocess exits non-zero (and
its stderr decodes as UTF-8 text `s` — the invalid-UTF-8 case is claim C10),
no upload call ever appears in the trace, and the error stream carries the
message `Error during mongodump: <s>` with the captured stderr text
verbatim. -/
theorem dump_failure_skips_upload_and_reports_stderr (a : Args) (w : World) (s : String)
    (h1 : w.mongoClientRes = Except.ok ()) (h2 : w.ismasterRes = Except.ok ())
    (hrc : w.dumpReturncode ≠ 0) (hdec : utf8Decode w.dumpStderr = Except.ok s) :
    (∀ b f, Event.uploadFromFilename b f ∉ (backup_mongo_to_gcs a w).trace) ∧
    Event.echoErr ("Error during mongodump: " ++ s) ∈ (backup_mongo_to_gcs a w).trace := by
  simp [backup_mongo_to_gcs, tryBody, RunOut.consTrace, h1, h2, hrc, hdec]

/-- Witness for C1: spec §8 scenario 3 — exit status 1 with stderr
`authentication failed`. -/
theorem dump_failure_witness :
    dumpFailWorld.mongoClientRes = Except.ok () ∧
    dumpFailWorld.dumpReturncode ≠ 0 ∧
    utf8Decode dumpFailWorld.dumpStderr = Except.ok "authentication failed" ∧
    ((∀ b f, Event.uploadFromFilename b f ∉ (backup_mongo_to_gcs sampleArgs dumpFailWorld).trace) ∧
      Event.echoErr ("Error during mongodump: " ++ "authentication failed") ∈
        (backup_mongo_to_gcs sampleArgs dumpFailWorld).trace) :=
  ⟨rfl, by decide, rfl,
    dump_failure_skips_upload_and_reports_stderr sampleArgs dumpFailWorld "authentication failed"
      rfl rfl (by decide) rfl⟩

/-- Claim C2: in every run in which the connectivity probe fails (either the
`MongoClient` handle or the `ismaster` command raises), the trace contains
no dump-subprocess invocation and no upload call, and the run ends directly
in the failed state: its last event is the top-level error print. -/
theorem probe_failure_skips_dump_and_upload (a : Args) (w : World) (e : PyExc)
    (h : w.mongoClientRes = Except.error e ∨
         (w.mongoClientRes = Except.ok () ∧ w.ismasterRes = Except.error e)) :
    (∀ c, Event.runSubprocess c ∉ (backup_mongo_to_gcs a w).trace) ∧
    (∀ b f, Event.uploadFromFilename b f ∉ (backup_mongo_to_gcs a w).trace) ∧
    (backup_mongo_to_gcs a w).trace.getLast? =
      some (Event.echoErr (topLevelErrorMessage e)) := by
  rcases h with h | ⟨h1, h2⟩
  · simp [backup_mongo_to_gcs, tryBody, RunOut.consTrace, h]
  · simp [backup_mongo_to_gcs, tryBody, RunOut.consTrace, h1, h2]

/-- Witness for C2: spec §8 scenario 2 — the database is unreachable. -/
theorem probe_failure_witness :
    (probeFailWorld.mongoClientRes =
      Except.error (PyExc.connectionFailure "localhost:27017: Connection refused") ∨
      (probeFailWorld.mongoClientRes = Except.ok () ∧ probeFailWorld.ismasterRes =
        Except.error (PyExc.connectionFailure "localhost:27017: Connection refused"))) ∧
    ((∀ c, Event.runSubprocess c ∉ (backup_mongo_to_gcs sampleArgs probeFailWorld).trace) ∧
     (∀ b f, Event.uploadFromFilename b f ∉ (backup_mongo_to_gcs sampleArgs probeFailWorld).trace) ∧
     (backup_mongo_to_gcs sampleArgs probeFailWorld).trace.getLast? =
       some (Event.echoErr (topLevelErrorMessage
         (PyExc.connectionFailure "localhost:27017: Connection refused")))) :=
  ⟨Or.inl rfl,
    probe_failure_skips_dump_and_upload sampleArgs probeFailWorld
      (PyExc.connectionFailure "localhost:27017: Connection refused") (Or.inl rfl)⟩

/-- Claim C3: in every run in which the dump subprocess exits 0 (and the
storage-client construction does not itself raise, which happens before the
upload call), the upload is invoked with the archive filename of the dump
step as both the local source path and the remote blob name, and every
upload event in the trace uses exactly that filename for both. -/
theorem dump_success_uploads_archive (a : Args) (w : World)
    (h1 : w.mongoClientRes = Except.ok ()) (h2 : w.ismasterRes = Except.ok ())
    (hrc : w.dumpReturncode = 0) (hsc : w.storageClientRes = Except.ok ()) :
    Event.runSubprocess
        (mongodumpCommand a.mongo_uri (backupArchiveName a.database_alias w.utcnow)) ∈
      (backup_mongo_to_gcs a w).trace ∧
    Event.uploadFromFilename (backupArchiveName a.database_alias w.utcnow)
        (backupArchiveName a.database_alias w.utcnow) ∈ (backup_mongo_to_gcs a w).trace ∧
    (∀ b f, Event.uploadFromFilename b f ∈ (backup_mongo_to_gcs a w).trace →
        b = backupArchiveName a.database_alias w.utcnow ∧
        f = backupArchiveName a.database_alias w.utcnow) := by
  cases hu : w.uploadRes <;>
    simp [backup_mongo_to_gcs, tryBody, RunOut.consTrace, h1, h2, hrc, hsc, hu]

/-- Witness for C3: spec §8 scenario 1 — the all-success run. -/
theorem dump_success_witness :
    okWorld.mongoClientRes = Except.ok () ∧ okWorld.dumpReturncode = 0 ∧
    okWorld.storageClientRes = Except.ok () ∧
    (Event.runSubprocess
        (mongodumpCommand sampleArgs.mongo_uri
          (backupArchiveName sampleArgs.database_alias okWorld.utcnow)) ∈
      (backup_mongo_to_gcs sampleArgs okWorld).trace ∧
    Event.uploadFromFilename (backupArchiveName sampleArgs.database_alias okWorld.utcnow)
        (backupArchiveName sampleArgs.database_alias okWorld.utcnow) ∈
      (backup_mongo_to_gcs sampleArgs okWorld).trace ∧
    (∀ b f, Event.uploadFromFilename b f ∈ (backup_mongo_to_gcs sampleArgs okWorld).trace →
        b = backupArchiveName sampleArgs.database_alias okWorld.utcnow ∧
        f = backupArchiveName sampleArgs.database_alias okWorld.utcnow)) :=
  ⟨rfl, rfl, rfl, dump_success_uploads_archive sampleArgs okWorld rfl rfl rfl rfl⟩

/-- Claim C4: every run invokes the dump subprocess at most once, every such
invocation carries the single archive filename
`mongo_backup_{alias}_{timestamp}.gz`, and that filename matches the
`YYYY-MM-DDTHH-MM-SS` second-resolution pattern built from the run's UTC
instant. -/
theorem run_produces_single_patterned_archive_name (a : Args) (w : World) :
    countDumpInvocations (backup_mongo_to_gcs a w).trace ≤ 1 ∧
    (∀ c, Event.runSubprocess c ∈ (backup_mongo_to_gcs a w).trace →
        c = mongodumpCommand a.mongo_uri (backupArchiveName a.database_alias w.utcnow)) ∧
    (∃ ts, backupArchiveName a.database_alias w.utcnow =
        "mongo_backup_" ++ a.database_alias ++ "_" ++ ts ++ ".gz" ∧
        timestampShape ts = true) := by
  refine ⟨?_, ?_, strftimeTimestamp w.utcnow, rfl, timestampShape_strftime w.utcnow⟩ <;>
  · obtain ⟨now, mc, im, rc, serr, sc, up, d0⟩ := w
    rcases mc with e | u
    · simp [backup_mongo_to_gcs, tryBody, RunOut.consTrace, countDumpInvocations]
    rcases im with e | u'
    · simp [backup_mongo_to_gcs, tryBody, RunOut.consTrace, countDumpInvocations]
    by_cases hrc : rc = 0
    · rcases sc with e | u''
      · simp [backup_mongo_to_gcs, tryBody, RunOut.consTrace, countDumpInvocations, hrc]
      rcases up with e | u'''
      · simp [backup_mongo_to_gcs, tryBody, RunOut.consTrace, countDumpInvocations, hrc]
      · simp [backup_mongo_to_gcs, tryBody, RunOut.consTrace, countDumpInvocations, hrc]
    · rcases hd : utf8Decode serr with e | s
      · simp [backup_mongo_to_gcs, tryBody, RunOut.consTrace, countDumpInvocations, hrc, hd]
      · simp [backup_mongo_to_gcs, tryBody, RunOut.consTrace, countDumpInvocations, hrc, hd]

/-- Claim C5: whenever a step raises, the exception is caught at the top
level of the single command handler (nothing escapes: the handler's `exc`
is `none`), the run's output is exactly the trace so far plus one
human-readable message on the error stream, and the process exit code is
the default 0 even on such a handled failure. -/
theorem failure_caught_printed_exit_zero (a : Args) (w : World) (e : PyExc)
    (h : (tryBody a w).exc = some e) :
    (backup_mongo_to_gcs a w).exc = none ∧
    (backup_mongo_to_gcs a w).trace =
      (tryBody a w).trace ++ [Event.echoErr (topLevelErrorMessage e)] ∧
    processExitCode a w = 0 := by
  simp [backup_mongo_to_gcs, h, processExitCode]

/-- Witness for C5: the unreachable-database run is caught and exits 0. -/
theorem failure_caught_witness :
    (tryBody sampleArgs probeFailWorld).exc =
      some (PyExc.connectionFailure "localhost:27017: Connection refused") ∧
    ((backup_mongo_to_gcs sampleArgs probeFailWorld).exc = none ∧
     (backup_mongo_to_gcs sampleArgs probeFailWorld).trace =
       (tryBody sampleArgs probeFailWorld).trace ++
         [Event.echoErr (topLevelErrorMessage
           (PyExc.connectionFailure "localhost:27017: Connection refused"))] ∧
     processExitCode sampleArgs probeFailWorld = 0) :=
  ⟨rfl, failure_caught_printed_exit_zero sampleArgs probeFailWorld
    (PyExc.connectionFailure "localhost:27017: Connection refused") rfl⟩

/-- Counterexample to claim C6 as stated: a probe failure whose exception is
not a `ConnectionFailure` (e.g. pymongo's `InvalidURI` from a malformed
connection string) is reported with the unclassified `An error occurred:`
message, not the connectivity one, because backup.py line 73 catches only
`ConnectionFailure` specially. -/
theorem probe_failure_not_always_connectivity : ¬ probeFailuresAllConnectivity := by
  intro h
  obtain ⟨m, hm⟩ := h sampleArgs probeOtherFailWorld (PyExc.other "bad uri") (Or.inl rfl)
  have hc : (backup_mongo_to_gcs sampleArgs probeOtherFailWorld).trace.getLast? =
      some (Event.echoErr "An error occurred: bad uri") := by decide
  rw [hc] at hm
  simp only [Option.some.injEq, Event.echoErr.injEq] at hm
  rw [show ("An error occurred: bad uri" : String) =
      "An error occurred: " ++ "bad uri" from rfl] at hm
  exact connectivityMsg_ne_unclassified m "bad uri" hm.symm

/-- Claim C6 as amended: every probe failure ends the run with the top-level
error print, and the classification follows the exception type — a
`ConnectionFailure` is rendered as `MongoDB connection failed: <e>`, while
any other exception raised during the probe is rendered with the
unclassified `An error occurred: <e>` message. -/
theorem probe_failure_message_classification (a : Args) (w : World) (e : PyExc)
    (h : w.mongoClientRes = Except.error e ∨
         (w.mongoClientRes = Except.ok () ∧ w.ismasterRes = Except.error e)) :
    (backup_mongo_to_gcs a w).trace.getLast? =
      some (Event.echoErr (topLevelErrorMessage e)) ∧
    (∀ m, e = PyExc.connectionFailure m →
        topLevelErrorMessage e = "MongoDB connection failed: " ++ m) ∧
    (∀ m, e = PyExc.other m → topLevelErrorMessage e = "An error occurred: " ++ m) := by
  refine ⟨?_, ?_, ?_⟩
  · rcases h with h | ⟨h1, h2⟩
    · simp [backup_mongo_to_gcs, tryBody, RunOut.consTrace, h]
    · simp [backup_mongo_to_gcs, tryBody, RunOut.consTrace, h1, h2]
  · rintro m rfl; rfl
  · rintro m rfl; rfl

/-- Witness for the amended C6: the malformed-URI probe failure. -/
theorem probe_failure_classification_witness :
    (probeOtherFailWorld.mongoClientRes = Except.error (PyExc.other "bad uri") ∨
      (probeOtherFailWorld.mongoClientRes = Except.ok () ∧
        probeOtherFailWorld.ismasterRes = Except.error (PyExc.other "bad uri"))) ∧
    ((backup_mongo_to_gcs sampleArgs probeOtherFailWorld).trace.getLast? =
        some (Event.echoErr (topLevelErrorMessage (PyExc.other "bad uri"))) ∧
      (∀ m, PyExc.other "bad uri" = PyExc.connectionFailure m →
          topLevelErrorMessage (PyExc.other "bad uri") = "MongoDB connection failed: " ++ m) ∧
      (∀ m, PyExc.other "bad uri" = PyExc.other m →
          topLevelErrorMessage (PyExc.other "bad uri") = "An error occurred: " ++ m)) :=
  ⟨Or.inl rfl, probe_failure_message_classification sampleArgs probeOtherFailWorld
    (PyExc.other "bad uri") (Or.inl rfl)⟩

/-- Claim C7: when the dump step succeeds and the subsequent upload step
fails (either while constructing the storage client or in the transfer
itself), the archive created by the dump step is still on disk and the disk
holds exactly the prior contents plus that archive; moreover on every path
of every run the program never removes anything from disk. -/
theorem archive_left_on_disk_after_upload_failure (a : Args) (w : World) (e : PyExc)
    (h1 : w.mongoClientRes = Except.ok ()) (h2 : w.ismasterRes = Except.ok ())
    (hrc : w.dumpReturncode = 0)
    (hup : w.storageClientRes = Except.error e ∨
           (w.storageClientRes = Except.ok () ∧ w.uploadRes = Except.error e)) :
    backupArchiveName a.database_alias w.utcnow ∈ (backup_mongo_to_gcs a w).disk ∧
    (backup_mongo_to_gcs a w).disk = backupArchiveName a.database_alias w.utcnow :: w.disk0 ∧
    (∀ a2 w2, World.disk0 w2 ⊆ (backup_mongo_to_gcs a2 w2).disk) := by
  refine ⟨?_, ?_, fun a2 w2 => disk_never_shrinks a2 w2⟩ <;>
  · rcases hup with h | ⟨h3, h4⟩
    · simp [backup_mongo_to_gcs, tryBody, RunOut.consTrace, h1, h2, hrc, h]
    · simp [backup_mongo_to_gcs, tryBody, RunOut.consTrace, h1, h2, hrc, h3, h4]

/-- Witness for C7: spec §8 scenario 4 — invalid credentials make the
transfer fail; the local archive stays on disk. -/
theorem archive_left_witness :
    uploadFailWorld.dumpReturncode = 0 ∧
    uploadFailWorld.uploadRes = Except.error (PyExc.other "403 Forbidden") ∧
    (backupArchiveName sampleArgs.database_alias uploadFailWorld.utcnow ∈
        (backup_mongo_to_gcs sampleArgs uploadFailWorld).disk ∧
      (backup_mongo_to_gcs sampleArgs uploadFailWorld).disk =
        backupArchiveName sampleArgs.database_alias uploadFailWorld.utcnow ::
          uploadFailWorld.disk0 ∧
      (∀ a2 w2, World.disk0 w2 ⊆ (backup_mongo_to_gcs a2 w2).disk)) :=
  ⟨rfl, rfl, archive_left_on_disk_after_upload_failure sampleArgs uploadFailWorld
    (PyExc.other "403 Forbidden") rfl rfl rfl (Or.inr ⟨rfl, rfl⟩)⟩

/-- Claim C8: the `__main__` prologue logs the warning and calls
`load_dotenv` on `.env` exactly when that file exists, and does so before
the command (and with it the command-line parsing) is invoked; when the
file does not exist, no warning is logged, `load_dotenv` is not called, and
the process environment is left unmodified. -/
theorem dotenv_prologue_behavior
    (f : List (String × String) → List (String × String))
    (env0 : List (String × String)) :
    (mainScript true = [MainEvent.logWarning "loading `.env`", MainEvent.loadDotenv ".env",
        MainEvent.invokeCommand] ∧ mainEnv true f env0 = f env0) ∧
    (mainScript false = [MainEvent.invokeCommand] ∧ mainEnv false f env0 = env0) :=
  ⟨⟨rfl, rfl⟩, ⟨rfl, rfl⟩⟩

/-- Counterexample to claim C9 as stated: in the all-success run the
timestamp acquisition (`datetime.utcnow()`, backup.py line 39) sits at
trace index 4, after the `MongoClient` connection at index 1 — the
timestamp is not taken before the three steps start. -/
theorem timestamp_not_taken_at_start : ¬ timestampTakenBeforeProbe := by
  intro h
  have := h sampleArgs okWorld 4 1 (by decide) (by decide)
  exact absurd this (by decide)

/-- Claim C9 as amended: the timestamp is taken after the connectivity
probe has succeeded and before the dump subprocess is invoked — the trace
splits as `pre ++ [getUtcNow] ++ post` with the `ismaster` probe in `pre`,
no subprocess invocation in `pre`, and the dump invocation in `post`. -/
theorem timestamp_taken_between_probe_and_dump (a : Args) (w : World)
    (h1 : w.mongoClientRes = Except.ok ()) (h2 : w.ismasterRes = Except.ok ()) :
    ∃ pre post,
      (backup_mongo_to_gcs a w).trace = pre ++ Event.getUtcNow :: post ∧
      Event.adminCommand "ismaster" ∈ pre ∧
      (∀ c, Event.runSubprocess c ∉ pre) ∧
      Event.runSubprocess
          (mongodumpCommand a.mongo_uri (backupArchiveName a.database_alias w.utcnow)) ∈
        post := by
  obtain ⟨now, mc, im, rc, serr, sc, up, d0⟩ := w
  subst h1; subst h2
  refine ⟨[Event.echoOut "Connecting to MongoDB...", Event.mongoConnect a.mongo_uri,
      Event.adminCommand "ismaster", Event.echoOut "Successfully connected to MongoDB."],
      (backup_mongo_to_gcs a ⟨now, Except.ok (), Except.ok (), rc, serr, sc, up, d0⟩).trace.drop
        5, ?_, by simp, by simp, ?_⟩ <;>
  · by_cases hrc : rc = 0
    · rcases sc with e | u
      · simp [backup_mongo_to_gcs, tryBody, RunOut.consTrace, hrc]
      rcases up with e2 | u2
      · simp [backup_mongo_to_gcs, tryBody, RunOut.consTrace, hrc]
      · simp [backup_mongo_to_gcs, tryBody, RunOut.consTrace, hrc]
    · rcases hd : utf8Decode serr with e | s
      · simp [backup_mongo_to_gcs, tryBody, RunOut.consTrace, hrc, hd]
      · simp [backup_mongo_to_gcs, tryBody, RunOut.consTrace, hrc, hd]

/-- Witness for the amended C9: the all-success run. -/
theorem timestamp_between_witness :
    okWorld.mongoClientRes = Except.ok () ∧ okWorld.ismasterRes = Except.ok () ∧
    (∃ pre post,
      (backup_mongo_to_gcs sampleArgs okWorld).trace = pre ++ Event.getUtcNow :: post ∧
      Event.adminCommand "ismaster" ∈ pre ∧
      (∀ c, Event.runSubprocess c ∉ pre) ∧
      Event.runSubprocess
          (mongodumpCommand sampleArgs.mongo_uri
            (backupArchiveName sampleArgs.database_alias okWorld.utcnow)) ∈ post) :=
  ⟨rfl, rfl, timestamp_taken_between_probe_and_dump sampleArgs okWorld rfl rfl⟩

/-- Claim C10: if the dump subprocess exits non-zero and its captured stderr
bytes are not valid UTF-8, the `decode("utf-8")` call inside the
error-reporting f-string raises, so the run is reported through the
unclassified `An error occurred: ...` message instead of any
`Error during mongodump: ...` message, and the upload is still never
invoked. -/
theorem dump_failure_invalid_utf8_unclassified (a : Args) (w : World) (p b : Nat)
    (h1 : w.mongoClientRes = Except.ok ()) (h2 : w.ismasterRes = Except.ok ())
    (hrc : w.dumpReturncode ≠ 0)
    (hdec : utf8Decode w.dumpStderr = Except.error (PyExc.unicodeDecodeError p b)) :
    (∀ bn f, Event.uploadFromFilename bn f ∉ (backup_mongo_to_gcs a w).trace) ∧
    (∀ s, Event.echoErr ("Error during mongodump: " ++ s) ∉ (backup_mongo_to_gcs a w).trace) ∧
    (backup_mongo_to_gcs a w).trace.getLast? =
      some (Event.echoErr ("An error occurred: " ++
        excMessage (PyExc.unicodeDecodeError p b))) := by
  simp [backup_mongo_to_gcs, tryBody, RunOut.consTrace, h1, h2, hrc, hdec,
    topLevelErrorMessage, dumpMsg_ne_unclassified]

/-- Witness for C10: stderr is the single byte `0xFF`. -/
theorem dump_failure_invalid_utf8_witness :
    dumpFailBadUtf8World.dumpReturncode ≠ 0 ∧
    utf8Decode dumpFailBadUtf8World.dumpStderr =
      Except.error (PyExc.unicodeDecodeError 0 255) ∧
    ((∀ bn f, Event.uploadFromFilename bn f ∉
        (backup_mongo_to_gcs sampleArgs dumpFailBadUtf8World).trace) ∧
     (∀ s, Event.echoErr ("Error during mongodump: " ++ s) ∉
        (backup_mongo_to_gcs sampleArgs dumpFailBadUtf8World).trace) ∧
     (backup_mongo_to_gcs sampleArgs dumpFailBadUtf8World).trace.getLast? =
       some (Event.echoErr ("An error occurred: " ++
         excMessage (PyExc.unicodeDecodeError 0 255)))) :=
  ⟨by decide, rfl, dump_failure_invalid_utf8_unclassified sampleArgs dumpFailBadUtf8World
    0 255 rfl rfl (by decide) rfl⟩

end MongoBackup
